import Mathlib

/-!
Verification of the SkillSync-AI resume-analysis pipeline
(`src/resume_analysis.py` and `src/utils.py`).

Python values flowing through the pipeline are dynamically typed, so we embed
them as an inductive `Value` type (JSON-like, matching what `json.loads` can
produce plus `None`/booleans).  Python code that can raise is embedded in
`Except String`, where the `String` is the exception's message (`str(err)`).
The external AI service transport and the third-party extraction libraries
(pdfplumber / python-docx) are abstracted as oracle parameters; everything
else is translated directly from the source.
-/

set_option autoImplicit false

namespace SkillSync

/-- A dynamically typed Python value, as produced by `json.loads` together
with `None` and booleans. -/
inductive Value where
  | none
  | bool (b : Bool)
  | int (n : Int)
  | str (s : String)
  | list (xs : List Value)
  | dict (entries : List (String × Value))
deriving Repr

mutual

/-- Structural equality on `Value` (Python `==` restricted to this domain). -/
def Value.beq : Value → Value → Bool
  | .none, .none => true
  | .bool a, .bool b => a == b
  | .int a, .int b => a == b
  | .str a, .str b => a == b
  | .list xs, .list ys => Value.beqList xs ys
  | .dict xs, .dict ys => Value.beqEntries xs ys
  | _, _ => false

/-- Pointwise equality of value lists. -/
def Value.beqList : List Value → List Value → Bool
  | [], [] => true
  | x :: xs, y :: ys => Value.beq x y && Value.beqList xs ys
  | _, _ => false

/-- Pointwise equality of dict entry lists. -/
def Value.beqEntries : List (String × Value) → List (String × Value) → Bool
  | [], [] => true
  | (k, v) :: xs, (l, w) :: ys => k == l && Value.beq v w && Value.beqEntries xs ys
  | _, _ => false

end

instance : BEq Value := ⟨Value.beq⟩

/-- Python truthiness for our value domain (`bool(v)`). -/
def Value.truthy : Value → Bool
  | .none => false
  | .bool b => b
  | .int n => n != 0
  | .str s => s != ""
  | .list xs => !xs.isEmpty
  | .dict es => !es.isEmpty

/-- Python type name of a value, as it appears in exception messages. -/
def Value.typeName : Value → String
  | .none => "NoneType"
  | .bool _ => "bool"
  | .int _ => "int"
  | .str _ => "str"
  | .list _ => "list"
  | .dict _ => "dict"

/-- Whether a value may be used as a `dict` key (Python hashability). -/
def Value.hashable : Value → Bool
  | .list _ => false
  | .dict _ => false
  | _ => true

/-- Python `str(v)` as used by f-string interpolation, for the values the
pipeline actually interpolates (strings are inserted verbatim). -/
def Value.pyStr : Value → String
  | .none => "None"
  | .bool b => if b then "True" else "False"
  | .int n => toString n
  | .str s => s
  | .list _ => "[...]"
  | .dict _ => "\x7b...\x7d"

/-- Python `s.strip()`: drop leading and trailing whitespace.  Implemented
over the character list so that it evaluates inside the kernel. -/
def pyStrip (s : String) : String :=
  ⟨((s.toList.dropWhile Char.isWhitespace).reverse.dropWhile Char.isWhitespace).reverse⟩

/-- Whether the first character list occurs at the head of the second. -/
def charsStartWith : List Char → List Char → Bool
  | [], _ => true
  | _ :: _, [] => false
  | c :: cs, d :: ds => c == d && charsStartWith cs ds

/-- Whether the first character list occurs contiguously anywhere in the
second (substring containment). -/
def charsContain (needle : List Char) : List Char → Bool
  | [] => needle.isEmpty
  | c :: rest => charsStartWith needle (c :: rest) || charsContain needle rest

/-- Python `key in v` for a string key: dict key membership, list membership,
substring test on strings; other types raise `TypeError`. -/
def pyContains (v : Value) (key : String) : Except String Bool :=
  match v with
  | .dict es => .ok (es.any (fun e => e.1 == key))
  | .list xs => .ok (xs.any (fun x => Value.beq x (.str key)))
  | .str s => .ok (charsContain key.toList s.toList)
  | other => .error ("argument of type '" ++ other.typeName ++ "' is not iterable")

/-- Python `v.get(key, default)`: dict lookup with default; any non-dict
raises `AttributeError`. -/
def pyGet (v : Value) (key : String) (default : Value) : Except String Value :=
  match v with
  | .dict es =>
    match es.find? (fun e => e.1 == key) with
    | some e => .ok e.2
    | Option.none => .ok default
  | other => .error ("'" ++ other.typeName ++ "' object has no attribute 'get'")

/-- Python `v[key]` for a string key: dict item access raising `KeyError`
when absent; any non-dict raises `TypeError`. -/
def pyGetItem (v : Value) (key : String) : Except String Value :=
  match v with
  | .dict es =>
    match es.find? (fun e => e.1 == key) with
    | some e => .ok e.2
    | Option.none => .error ("KeyError: '" ++ key ++ "'")
  | other => .error ("'" ++ other.typeName ++ "' object is not subscriptable")

/-- Integer parsing of a string literal in the style of Python `int(s)`:
surrounding whitespace stripped, optional sign, at least one digit. -/
def pyParseInt (s : String) : Option Int :=
  let t := (pyStrip s).toList
  let signed : Bool × List Char :=
    match t with
    | '-' :: rest => (true, rest)
    | '+' :: rest => (false, rest)
    | _ => (false, t)
  if !signed.2.isEmpty && signed.2.all Char.isDigit then
    let mag : Int := Int.ofNat (signed.2.foldl (fun n c => n * 10 + (c.toNat - 48)) 0)
    some (if signed.1 then -mag else mag)
  else
    Option.none

/-- Python `int(v)` coercion: ints pass through, booleans become 0/1,
strings are parsed as integer literals, everything else raises. -/
def pyInt (v : Value) : Except String Int :=
  match v with
  | .int n => .ok n
  | .bool b => .ok (if b then 1 else 0)
  | .str s =>
    match pyParseInt s with
    | some n => .ok n
    | Option.none => .error ("invalid literal for int() with base 10: '" ++ s ++ "'")
  | other =>
    .error ("int() argument must be a string, a bytes-like object or a real number, not '"
            ++ other.typeName ++ "'")

/-- The six components returned by `parse_evaluation`:
(score, match status, skills list, rationale, candidate name, email). -/
abbrev ParseTuple := Int × Value × Value × Value × Value × Value

/-- The `try` body of `parse_evaluation` in `resume_analysis.py`
(lines 179-189): the sentinel check and the field extraction, with every
Python exception surfaced in `Except`. -/
def parse_evaluation_body (evaluation_data : Value) : Except String ParseTuple := do
  let hasErr ← pyContains evaluation_data "error"
  if hasErr then
    return (0, .str "No", .list [], .str "", .str "Unknown", .str "N/A")
  let scoreRaw ← pyGet evaluation_data "Score" (.int 0)
  let score ← pyInt scoreRaw
  let matchStatus ← pyGet evaluation_data "Match" (.str "No")
  let skills ← pyGet evaluation_data "Skills Found" (.list [])
  let rationale ← pyGet evaluation_data "Rationale" (.str "No explanation provided.")
  let name ← pyGet evaluation_data "Candidate Name" (.str "Unknown")
  let email ← pyGet evaluation_data "Email" (.str "N/A")
  return (score, matchStatus, skills, rationale, name, email)

/-- The function `parse_evaluation` (lines 169-191): the body wrapped in the
`try`/`except` that maps any exception to the fallback tuple with the
parsing-error rationale. -/
def parse_evaluation (evaluation_data : Value) : ParseTuple :=
  match parse_evaluation_body evaluation_data with
  | .ok r => r
  | .error e =>
    (0, .str "No", .list [], .str ("Error during parsing: " ++ e), .str "Unknown", .str "N/A")

/-- Outcome of one AI service round-trip as seen by the `try` block of
`perform_resume_evaluation`: either the value produced by
`json.loads(response)` or the message of the exception raised by the
transport or by JSON parsing.  The transport itself is an external
collaborator, so it enters the model as this oracle. -/
abbrev ServiceOutcome := Except String Value

/-- The function `perform_resume_evaluation` (lines 105-167).  Returns the resulting
value together with a flag recording whether the AI service transport was
invoked.  The empty-resume precondition check short-circuits before the
service call; otherwise the call's outcome is either returned as parsed
JSON or captured into the `error` sentinel dict. -/
def perform_resume_evaluation (svc : ServiceOutcome) (job_desc resume_content : String) :
    Value × Bool :=
  if (pyStrip resume_content == "") then
    (.dict [("error", .str "The resume content is empty.")], false)
  else
    match svc with
    | .ok v => (v, true)
    | .error e => (.dict [("error", .str ("AI evaluation failed: " ++ e))], true)

/-! ## Text extraction (`utils.py`) -/

/-- An uploaded file as seen by the dashboard: its display name, its declared
media type, and its raw content (abstracted to a string of bytes). -/
structure UploadFile where
  name : String
  type : String
  raw : String

/-- External collaborators of the pipeline: the three third-party extraction
backends (`get_pdf_content` via pdfplumber, `get_docx_content` via
python-docx, `get_txt_content` via UTF-8 decoding) and the AI service
transport.  Each extractor may raise (modelled as `Except`); the transport
oracle maps the job description and resume text of a call to that call's
outcome. -/
structure Env where
  getPdf : UploadFile → Except String String
  getDocx : UploadFile → Except String String
  getTxt : UploadFile → Except String String
  svc : String → String → ServiceOutcome

/-- The function `fetch_text_content` (`utils.py` lines 51-74): dispatch on the declared
media type, raising `ValueError` with a fixed message on anything outside
the supported set. -/
def fetch_text_content (env : Env) (file_obj : UploadFile) : Except String String :=
  if file_obj.type == "application/pdf" then
    env.getPdf file_obj
  else if file_obj.type == "application/vnd.openxmlformats-officedocument.wordprocessingml.document"
      || file_obj.type == "application/msword" then
    env.getDocx file_obj
  else if file_obj.type == "text/plain" then
    env.getTxt file_obj
  else
    .error "Unsupported file type. Provide PDF, DOCX, or TXT only."

/-! ## The batch loop of `display_resume_dashboard` (`resume_analysis.py` lines 49-70) -/

/-- One entry of `st.session_state.results`: the dict built at lines 58-65. -/
structure RecordRow where
  candidateName : Value
  email : Value
  score : Int
  matchStatus : Value
  skillsFound : Value
  rationale : Value
deriving Repr

/-- The session state touched by the batch loop: the results list, the
`resume_texts` dict (name value as key, insertion-ordered), the per-document
error messages shown via `st.error`, and a count of how many times the
evaluation engine (`perform_resume_evaluation`) was entered. -/
structure BatchState where
  results : List RecordRow
  resumeTexts : List (Value × String)
  errors : List String
  evalCalls : Nat

/-- The empty session state installed at the start of a batch
(`st.session_state.results = []`, `st.session_state.resume_texts` cleared). -/
def BatchState.init : BatchState := ⟨[], [], [], 0⟩

/-- Python dict assignment `m[k] = v`: update in place when the key exists
(insertion order kept), otherwise append. -/
def assocSet (m : List (Value × String)) (k : Value) (v : String) : List (Value × String) :=
  match m with
  | [] => [(k, v)]
  | (k0, v0) :: rest =>
    if Value.beq k0 k then (k0, v) :: rest else (k0, v0) :: assocSet rest k v

/-- Lines 56-65 applied to the extracted text of one document: evaluate,
parse, and shape the record dict appended to `st.session_state.results`. -/
def docRow (env : Env) (jd_text : String) (text_content : String) : RecordRow :=
  let eval_output := perform_resume_evaluation (env.svc jd_text text_content) jd_text text_content
  let parsed := parse_evaluation eval_output.1
  ⟨parsed.2.2.2.2.1, parsed.2.2.2.2.2, parsed.1, parsed.2.1, parsed.2.2.1, parsed.2.2.2.1⟩

/-- One iteration of the `for resume in upload_files` loop, lines 53-68:
extract, evaluate, parse, append the record, store the resume text under the
candidate-name key; any exception in the body is caught and turned into the
`Failed to process ...` error message carrying the file's name.  The only
raising steps are extraction and the dict assignment (the dict assignment
raises `TypeError` when the parsed candidate name is unhashable; it happens
after the record append, matching the statement order in the source). -/
def processDoc (env : Env) (jd_text : String) (st : BatchState) (resume : UploadFile) :
    BatchState :=
  match fetch_text_content env resume with
  | .error e =>
    { st with errors := st.errors ++ ["Failed to process " ++ resume.name ++ ": " ++ e] }
  | .ok text_content =>
    let row := docRow env jd_text text_content
    let st1 : BatchState :=
      { st with evalCalls := st.evalCalls + 1, results := st.results ++ [row] }
    if row.candidateName.hashable then
      { st1 with resumeTexts := assocSet st1.resumeTexts row.candidateName text_content }
    else
      { st1 with errors := st1.errors ++
          ["Failed to process " ++ resume.name ++ ": unhashable type: '"
           ++ row.candidateName.typeName ++ "'"] }

/-- The whole batch loop over the uploaded files, starting from the freshly
reset session stores. -/
def runBatch (env : Env) (jd_text : String) (files : List UploadFile) : BatchState :=
  files.foldl (processDoc env jd_text) BatchState.init

/-- The user-identity part of `st.session_state` as the rest of the
repository actually leaves it: the authentication flow and `app.py` set
`st.session_state.user_details` (and `logged_in`/`user_role`), and no code
anywhere in the repository ever sets `user_info`. -/
structure SessionAuth where
  userDetails : Value

/-- Streamlit attribute access `st.session_state.<attr>` for the user
identity attributes: `user_details` is the one the login flow initializes;
any other attribute was never initialized, so the access raises
`AttributeError` with Streamlit's message. -/
def sessionUserAttr (auth : SessionAuth) (attr : String) : Except String Value :=
  if attr == "user_details" then .ok auth.userDetails
  else .error ("st.session_state has no attribute \"" ++ attr
               ++ "\". Did you forget to initialize it?")

/-- Usage logging after the loop (lines 69-70): when the results list is
non-empty the source evaluates `st.session_state.user_info['email']` and
passes it to `log_usage` together with `len(upload_files)`.  The attribute
access and the item access may raise (and this code runs outside any
`try`), so the step is in `Except`; a success value `some (email, count)`
records what would be reported to the analytics collaborator. -/
def usageReport (env : Env) (jd_text : String) (files : List UploadFile)
    (auth : SessionAuth) : Except String (Option (Value × Nat)) :=
  if (runBatch env jd_text files).results.isEmpty then .ok Option.none
  else do
    let ui ← sessionUserAttr auth "user_info"
    let email ← pyGetItem ui "email"
    .ok (some (email, files.length))

/-! ## Ranking (line 74) -/

/-- Insert a record into a score-descending list, before the first element
whose score it meets or exceeds are exhausted — i.e. after every strictly
greater score, before the first less-or-equal one. -/
def insertByScore (x : RecordRow) : List RecordRow → List RecordRow
  | [] => [x]
  | y :: ys => if y.score > x.score then y :: insertByScore x ys else x :: y :: ys

/-- The call `sorted(results, key=lambda x: x["Score"], reverse=True)`: the stable
descending sort by score, realised as insertion sort (stability: an element
is inserted after exactly the strictly greater scores, so equal scores keep
submission order, as Python's stable `sorted` guarantees). -/
def rank : List RecordRow → List RecordRow
  | [] => []
  | x :: xs => insertByScore x (rank xs)

/-! ## Candidate selection (lines 86-92) -/

/-- Python `list.index(x)`: position of the first occurrence, `ValueError`
when absent. -/
def listIndex (xs : List Value) (x : Value) : Except String Nat :=
  match xs with
  | [] => .error (x.pyStr ++ " is not in list")
  | y :: ys =>
    if Value.beq y x then .ok 0
    else
      match listIndex ys x with
      | .ok i => .ok (i + 1)
      | .error e => .error e

/-- The candidate-name column handed to the selectbox (line 86). -/
def candidateNames (rs : List RecordRow) : List Value := rs.map (·.candidateName)

/-- The selectbox invocation of lines 87-91: the index argument is
`candidate_names.index(selected)` when the stored selection is truthy and 0
otherwise, and the selectbox then yields the option at that index.  The
`.index` call raises `ValueError` when the stored selection is not among
the new names. -/
def selectCandidate (names : List Value) (selected_candidate : Value) :
    Except String Value :=
  match (if selected_candidate.truthy then listIndex names selected_candidate else .ok 0) with
  | .error e => .error e
  | .ok i => .ok (names.getD i .none)

/-! ## Interview Q&A generation (`generate_interview_qa`, lines 193-244) -/

/-- Python iteration (`for ... in v`) over our value domain: lists yield
their elements, strings their characters, dicts their keys; other values
raise `TypeError`. -/
def pyIterate (v : Value) : Except String (List Value) :=
  match v with
  | .list xs => .ok xs
  | .str s => .ok (s.toList.map (fun c => .str (String.singleton c)))
  | .dict es => .ok (es.map (fun e => .str e.1))
  | other => .error ("'" ++ other.typeName ++ "' object is not iterable")

/-- The `for idx, entry in enumerate(questions)` loop of lines 239-241:
two formatted lines per entry, with the 1-based ordinal `idx + 1` baked into
the question line; item access on each entry may raise. -/
def qaLines (idx : Nat) : List Value → Except String (List String)
  | [] => .ok []
  | entry :: rest => do
    let q ← pyGetItem entry "question"
    let a ← pyGetItem entry "answer"
    let tail ← qaLines (idx + 1) rest
    return ("**" ++ toString (idx + 1) ++ ". " ++ q.pyStr ++ "**")
        :: ("Suggested Answer: " ++ a.pyStr ++ "\n") :: tail

/-- The function `generate_interview_qa`: on a successful service round-trip the parsed
JSON's `questions` list is formatted into one newline-joined string; any
exception anywhere in the `try` block (service call, JSON parsing, field
access) is caught and rendered as the error string.  The returned Python
object is a `str` on every path, which the codomain `Value` makes
observable. -/
def generate_interview_qa (svc : ServiceOutcome) : Value :=
  match (do
      let qa_json ← svc
      let questions ← pyGet qa_json "questions" (.list [])
      let entries ← pyIterate questions
      let lines ← qaLines 0 entries
      return String.intercalate "\n" lines : Except String String) with
  | .ok s => .str s
  | .error ex => .str ("Error generating interview Q&A: " ++ ex)

/-- Whether a Python value is a `str`. -/
def Value.isStr : Value → Bool
  | .str _ => true
  | _ => false

/-- Whether a Python value is a `list`. -/
def Value.isList : Value → Bool
  | .list _ => true
  | _ => false

/-! ## Per-document projections of the batch loop

Each loop iteration touches the append-only parts of the state in a way that
depends only on its own document; these projections name that per-document
contribution so the isolation theorems can decompose the whole fold. -/

/-- Records contributed by one document: none when extraction raises, the
parsed row otherwise. -/
def docRecords (env : Env) (jd_text : String) (resume : UploadFile) : List RecordRow :=
  match fetch_text_content env resume with
  | .error _ => []
  | .ok text_content => [docRow env jd_text text_content]

/-- Error messages contributed by one document. -/
def docErrors (env : Env) (jd_text : String) (resume : UploadFile) : List String :=
  match fetch_text_content env resume with
  | .error e => ["Failed to process " ++ resume.name ++ ": " ++ e]
  | .ok text_content =>
    if (docRow env jd_text text_content).candidateName.hashable then []
    else ["Failed to process " ++ resume.name ++ ": unhashable type: '"
          ++ (docRow env jd_text text_content).candidateName.typeName ++ "'"]

/-- Number of times one document's iteration enters the evaluation engine. -/
def docEvalCalls (env : Env) (jd_text : String) (resume : UploadFile) : Nat :=
  match fetch_text_content env resume with
  | .error _ => 0
  | .ok _ => 1

/-! ## Concrete data used by the witnesses -/

/-- A service oracle that answers every evaluation call with a well-formed
record naming the candidate after the resume text. -/
def svcEcho : String → String → ServiceOutcome := fun _ resume_content =>
  .ok (.dict [("Candidate Name", .str resume_content), ("Email", .str "a@b.example"),
              ("Score", .int 80), ("Match", .str "Yes"),
              ("Skills Found", .list [.str "python"]), ("Rationale", .str "solid")])

/-- An environment whose extraction backends succeed with the raw content. -/
def envW : Env :=
  ⟨fun f => .ok f.raw, fun f => .ok f.raw, fun f => .ok f.raw, svcEcho⟩

/-- A supported upload. -/
def fileA : UploadFile := ⟨"a.pdf", "application/pdf", "alice resume"⟩

/-- An upload with an unsupported declared media type. -/
def fileBad : UploadFile := ⟨"b.xyz", "image/png", "bob resume"⟩

/-- Another supported upload. -/
def fileC : UploadFile := ⟨"c.txt", "text/plain", "carol resume"⟩

/-- A successful Q&A service outcome with one question/answer pair. -/
def svcQAGood : ServiceOutcome :=
  .ok (.dict [("questions", .list [.dict [("question", .str "Q1"), ("answer", .str "A1")]])])

/-- A well-formed evaluation dict whose Score is not coercible to `int`. -/
def badScoreDict : Value :=
  .dict [("Candidate Name", .str "Jane Doe"), ("Email", .str "jane@x.example"),
         ("Score", .str "ninety"), ("Match", .str "Yes"),
         ("Skills Found", .list [.str "Python", .str "SQL"]),
         ("Rationale", .str "Strong fit")]

/-- The error-sentinel dict produced for a failed service call. -/
def sentinelDict : Value := .dict [("error", .str "AI evaluation failed: boom")]

/-- A session as the login flow leaves it: `user_details` holds the
authenticated user's record (and `user_info` was never initialized). -/
def sessionW : SessionAuth :=
  ⟨.dict [("name", .str "User"), ("email", .str "u@example.com")]⟩

/-- Ranking example, first submitted record: score 40. -/
def row40 : RecordRow := ⟨.str "w", .str "w@x", 40, .str "No", .list [], .str "r1"⟩

/-- Ranking example, second submitted record: score 90. -/
def row90a : RecordRow := ⟨.str "x", .str "x@x", 90, .str "Yes", .list [], .str "r2"⟩

/-- Ranking example, third submitted record: score 90, distinct from the
second. -/
def row90b : RecordRow := ⟨.str "y", .str "y@x", 90, .str "Yes", .list [], .str "r3"⟩

/-- Ranking example, fourth submitted record: score 10. -/
def row10 : RecordRow := ⟨.str "z", .str "z@x", 10, .str "No", .list [], .str "r4"⟩

/-! ## Helper lemmas: decomposing the batch fold -/

/-- One loop iteration appends exactly the document's own records. -/
theorem processDoc_results (env : Env) (jd : String) (st : BatchState) (f : UploadFile) :
    (processDoc env jd st f).results = st.results ++ docRecords env jd f := by
  unfold processDoc docRecords
  cases fetch_text_content env f with
  | error e => simp
  | ok t => dsimp only; split <;> simp

/-- One loop iteration appends exactly the document's own error messages. -/
theorem processDoc_errors (env : Env) (jd : String) (st : BatchState) (f : UploadFile) :
    (processDoc env jd st f).errors = st.errors ++ docErrors env jd f := by
  unfold processDoc docErrors
  cases fetch_text_content env f with
  | error e => simp
  | ok t => dsimp only; split <;> simp

/-- One loop iteration adds exactly the document's own evaluation-engine
entry count. -/
theorem processDoc_evalCalls (env : Env) (jd : String) (st : BatchState) (f : UploadFile) :
    (processDoc env jd st f).evalCalls = st.evalCalls + docEvalCalls env jd f := by
  unfold processDoc docEvalCalls
  cases fetch_text_content env f with
  | error e => simp
  | ok t => dsimp only; split <;> simp

/-- Fold decomposition for the results list. -/
theorem foldl_processDoc_results (env : Env) (jd : String) :
    ∀ (files : List UploadFile) (st : BatchState),
      (files.foldl (processDoc env jd) st).results
        = st.results ++ files.flatMap (docRecords env jd) := by
  intro files
  induction files with
  | nil => intro st; simp
  | cons f fs ih =>
    intro st
    simp only [List.foldl_cons, List.flatMap_cons, ih, processDoc_results, List.append_assoc]

/-- Fold decomposition for the error messages. -/
theorem foldl_processDoc_errors (env : Env) (jd : String) :
    ∀ (files : List UploadFile) (st : BatchState),
      (files.foldl (processDoc env jd) st).errors
        = st.errors ++ files.flatMap (docErrors env jd) := by
  intro files
  induction files with
  | nil => intro st; simp
  | cons f fs ih =>
    intro st
    simp only [List.foldl_cons, List.flatMap_cons, ih, processDoc_errors, List.append_assoc]

/-- Fold decomposition for the evaluation-engine entry count. -/
theorem foldl_processDoc_evalCalls (env : Env) (jd : String) :
    ∀ (files : List UploadFile) (st : BatchState),
      (files.foldl (processDoc env jd) st).evalCalls
        = st.evalCalls + (files.map (docEvalCalls env jd)).sum := by
  intro files
  induction files with
  | nil => intro st; simp
  | cons f fs ih =>
    intro st
    simp only [List.foldl_cons, List.map_cons, List.sum_cons, ih, processDoc_evalCalls]
    omega

/-- The whole batch produces exactly the concatenation of each document's
own records. -/
theorem runBatch_results (env : Env) (jd : String) (files : List UploadFile) :
    (runBatch env jd files).results = files.flatMap (docRecords env jd) := by
  unfold runBatch
  rw [foldl_processDoc_results]
  rfl

/-- The whole batch reports exactly the concatenation of each document's
own error messages. -/
theorem runBatch_errors (env : Env) (jd : String) (files : List UploadFile) :
    (runBatch env jd files).errors = files.flatMap (docErrors env jd) := by
  unfold runBatch
  rw [foldl_processDoc_errors]
  rfl

/-- The whole batch enters the evaluation engine exactly the summed
per-document number of times. -/
theorem runBatch_evalCalls (env : Env) (jd : String) (files : List UploadFile) :
    (runBatch env jd files).evalCalls = (files.map (docEvalCalls env jd)).sum := by
  unfold runBatch
  rw [foldl_processDoc_evalCalls]
  simp [BatchState.init]

/-! ## Helper lemmas: the stable descending sort -/

/-- Inserting is a permutation: the result is the element consed on. -/
theorem perm_insertByScore (x : RecordRow) (l : List RecordRow) :
    List.Perm (insertByScore x l) (x :: l) := by
  induction l with
  | nil => simp [insertByScore]
  | cons y ys ih =>
    rw [insertByScore]
    by_cases hc : y.score > x.score
    · rw [if_pos hc]
      exact List.Perm.trans (List.Perm.cons y ih) (List.Perm.swap x y ys)
    · rw [if_neg hc]

/-- Membership in an insertion. -/
theorem mem_insertByScore {z x : RecordRow} {l : List RecordRow} :
    z ∈ insertByScore x l ↔ z = x ∨ z ∈ l :=
  ⟨fun h => by simpa using (perm_insertByScore x l).mem_iff.mp h,
   fun h => (perm_insertByScore x l).mem_iff.mpr (by simpa using h)⟩

/-- Inserting into a score-descending list keeps it score-descending. -/
theorem pairwise_insertByScore (x : RecordRow) (l : List RecordRow)
    (h : List.Pairwise (fun a b => b.score ≤ a.score) l) :
    List.Pairwise (fun a b => b.score ≤ a.score) (insertByScore x l) := by
  induction l with
  | nil => simp [insertByScore]
  | cons y ys ih =>
    rw [insertByScore]
    rcases List.pairwise_cons.mp h with ⟨hy, hys⟩
    by_cases hc : y.score > x.score
    · rw [if_pos hc]
      refine List.pairwise_cons.mpr ⟨?_, ih hys⟩
      intro z hz
      rcases mem_insertByScore.mp hz with rfl | hz
      · exact le_of_lt hc
      · exact hy z hz
    · rw [if_neg hc]
      push_neg at hc
      refine List.pairwise_cons.mpr ⟨?_, h⟩
      intro z hz
      rcases List.mem_cons.mp hz with rfl | hz
      · exact hc
      · exact le_trans (hy z hz) hc

/-- Filtering an insertion by score class: the inserted element lands in
front of its own score class and leaves every other class untouched (this
is exactly what makes the insertion sort stable). -/
theorem filter_insertByScore (x : RecordRow) (s : Int) (l : List RecordRow) :
    (insertByScore x l).filter (fun r => r.score == s)
      = if x.score = s then x :: l.filter (fun r => r.score == s)
        else l.filter (fun r => r.score == s) := by
  induction l with
  | nil =>
    by_cases hx : x.score = s <;>
      simp [insertByScore, List.filter_cons, beq_iff_eq, hx]
  | cons y ys ih =>
    rw [insertByScore]
    by_cases hc : y.score > x.score
    · rw [if_pos hc]
      by_cases hx : x.score = s
      · have hy : ¬ (y.score = s) := by omega
        simp [List.filter_cons, hx, hy, ih]
      · simp only [List.filter_cons, ih, if_neg hx]
    · rw [if_neg hc]
      by_cases hx : x.score = s
      · simp [List.filter_cons, hx]
      · simp [List.filter_cons, hx]

/-- The ranking is score-descending. -/
theorem rank_pairwise (l : List RecordRow) :
    List.Pairwise (fun a b => b.score ≤ a.score) (rank l) := by
  induction l with
  | nil => simp [rank]
  | cons x xs ih => exact pairwise_insertByScore x (rank xs) ih

/-- The ranking is a permutation of its input. -/
theorem rank_perm (l : List RecordRow) : List.Perm (rank l) l := by
  induction l with
  | nil => simp [rank]
  | cons x xs ih =>
    exact List.Perm.trans (perm_insertByScore x (rank xs)) (List.Perm.cons x ih)

/-- Stability: each score class appears in the ranking in submission
order. -/
theorem rank_filter (l : List RecordRow) (s : Int) :
    (rank l).filter (fun r => r.score == s) = l.filter (fun r => r.score == s) := by
  induction l with
  | nil => simp [rank]
  | cons x xs ih =>
    rw [rank, filter_insertByScore]
    by_cases hx : x.score = s
    · simp [List.filter_cons, hx, ih]
    · simp [List.filter_cons, hx, ih]

/-! ## Claim theorems -/

/-- C1: In every batch, the records and the error reports are exactly the
concatenation of each document's own contribution — so an exception raised
while processing one document is caught, reported as an error message
carrying that document's name, and never prevents any remaining document
from being extracted and evaluated; the loop never aborts. -/
theorem claim_C1_batch_isolation (env : Env) (jd : String) (files : List UploadFile) :
    (runBatch env jd files).results = files.flatMap (docRecords env jd) ∧
    (runBatch env jd files).errors = files.flatMap (docErrors env jd) ∧
    ∀ (f : UploadFile) (e : String), fetch_text_content env f = .error e →
      docRecords env jd f = [] ∧
      docErrors env jd f = ["Failed to process " ++ f.name ++ ": " ++ e] := by
  refine ⟨runBatch_results env jd files, runBatch_errors env jd files, ?_⟩
  intro f e hf
  constructor
  · unfold docRecords
    rw [hf]
  · unfold docErrors
    rw [hf]

/-- Witness for C1: a concrete three-document batch whose middle document
declares an unsupported media type still contributes every other document's
record and one attributed error. -/
theorem claim_C1_batch_isolation_witness :
    (runBatch envW "JD" [fileA, fileBad, fileC]).results
        = [fileA, fileBad, fileC].flatMap (docRecords envW "JD") ∧
    (runBatch envW "JD" [fileA, fileBad, fileC]).errors
        = [fileA, fileBad, fileC].flatMap (docErrors envW "JD") ∧
    docRecords envW "JD" fileBad = [] ∧
    docErrors envW "JD" fileBad
        = ["Failed to process " ++ fileBad.name ++ ": "
           ++ "Unsupported file type. Provide PDF, DOCX, or TXT only."] := by
  obtain ⟨h1, h2, h3⟩ := claim_C1_batch_isolation envW "JD" [fileA, fileBad, fileC]
  obtain ⟨h4, h5⟩ := h3 fileBad "Unsupported file type. Provide PDF, DOCX, or TXT only." rfl
  exact ⟨h1, h2, h4, h5⟩

/-- C2 as stated is false: with an empty job description and a nonempty
resume text, `perform_resume_evaluation` does invoke the AI service
transport — only the resume text is precondition-checked. -/
theorem claim_C2_counterexample :
    (perform_resume_evaluation (Except.ok (.dict [("Score", .int 50)])) "" "Python developer").2
      = true := rfl

/-- C2 amended: whenever the resume text is empty or whitespace-only,
`perform_resume_evaluation` returns the error sentinel without invoking the
AI service transport (the job description is not checked). -/
theorem claim_C2_empty_resume (svc : ServiceOutcome) (job_desc resume_content : String)
    (h : pyStrip resume_content = "") :
    perform_resume_evaluation svc job_desc resume_content
      = (.dict [("error", .str "The resume content is empty.")], false) := by
  simp [perform_resume_evaluation, h]

/-- Witness for the amended C2 at a whitespace-only resume. -/
theorem claim_C2_empty_resume_witness :
    perform_resume_evaluation (Except.error "transport down") "JD" "   "
      = (.dict [("error", .str "The resume content is empty.")], false) :=
  claim_C2_empty_resume (Except.error "transport down") "JD" "   " (by decide)

/-- C3: `parse_evaluation` is total — on every input the fallible body
either succeeds, and its tuple is returned, or raises, and the exception is
caught and mapped to the fallback tuple; either way the result is a
six-field tuple. -/
theorem claim_C3_parse_evaluation_total (v : Value) :
    (parse_evaluation_body v = Except.ok (parse_evaluation v) ∨
      ∃ e, parse_evaluation_body v = Except.error e ∧
        parse_evaluation v
          = (0, .str "No", .list [], .str ("Error during parsing: " ++ e),
             .str "Unknown", .str "N/A")) ∧
    ∃ score m sk ra nm em, parse_evaluation v = (score, m, sk, ra, nm, em) := by
  constructor
  · cases h : parse_evaluation_body v with
    | ok r =>
      left
      unfold parse_evaluation
      rw [h]
    | error e =>
      right
      exact ⟨e, rfl, by unfold parse_evaluation; rw [h]⟩
  · exact ⟨_, _, _, _, _, _, rfl⟩

/-- C4 as stated is false: on the error sentinel, `parse_evaluation` yields
the string "N/A" for the email (not null) and the string "No" for the match
status (not the boolean false). -/
theorem claim_C4_counterexample :
    (parse_evaluation sentinelDict).2.2.2.2.2 = .str "N/A" ∧
    Value.beq (parse_evaluation sentinelDict).2.2.2.2.2 Value.none = false ∧
    (parse_evaluation sentinelDict).2.1 = .str "No" ∧
    Value.beq (parse_evaluation sentinelDict).2.1 (Value.bool false) = false :=
  ⟨rfl, rfl, rfl, rfl⟩

/-- C4 amended: on every input carrying the error sentinel,
`parse_evaluation` yields exactly score 0, match status the string "No",
empty skills list, empty rationale, candidate name "Unknown", and email the
string "N/A". -/
theorem claim_C4_sentinel_parse (v : Value) (h : pyContains v "error" = Except.ok true) :
    parse_evaluation v = (0, .str "No", .list [], .str "", .str "Unknown", .str "N/A") := by
  have hb : parse_evaluation_body v
      = Except.ok (0, .str "No", .list [], .str "", .str "Unknown", .str "N/A") := by
    unfold parse_evaluation_body
    rw [h]
    rfl
  unfold parse_evaluation
  rw [hb]

/-- Witness for the amended C4 at a concrete sentinel dict. -/
theorem claim_C4_sentinel_parse_witness :
    parse_evaluation sentinelDict
      = (0, .str "No", .list [], .str "", .str "Unknown", .str "N/A") :=
  claim_C4_sentinel_parse sentinelDict rfl

/-- C5: `rank` sorts by score in descending order, is a permutation of its
input, and is stable — every score class keeps its submission order — and
on records scored [40, 90, 90, 10] it returns the second, third, first,
fourth submitted records in that order. -/
theorem claim_C5_rank_stable_descending (l : List RecordRow) :
    List.Pairwise (fun a b => b.score ≤ a.score) (rank l) ∧
    List.Perm (rank l) l ∧
    (∀ s : Int, (rank l).filter (fun r => r.score == s)
        = l.filter (fun r => r.score == s)) ∧
    rank [row40, row90a, row90b, row10] = [row90a, row90b, row40, row10] :=
  ⟨rank_pairwise l, rank_perm l, fun s => rank_filter l s, rfl⟩

/-- C6 is false of the program: line 70 reads
`st.session_state.user_info['email']`, but no code in the repository ever
initializes `user_info` (the login flow sets `user_details`), so whenever at
least one record was produced the lookup raises `AttributeError` outside
any `try` and `log_usage` is never called; only an empty batch skips the
line without raising.  Concretely, the three-document batch that produces
2 records crashes at the lookup even in a correctly authenticated
session. -/
theorem claim_C6_usage_lookup_crashes (env : Env) (jd : String) (files : List UploadFile)
    (auth : SessionAuth) :
    (usageReport env jd files auth
        = if (runBatch env jd files).results.isEmpty then Except.ok Option.none
          else Except.error
            "st.session_state has no attribute \"user_info\". Did you forget to initialize it?") ∧
    (runBatch envW "JD" [fileA, fileBad, fileC]).results.length = 2 ∧
    (runBatch envW "JD" [fileA, fileBad, fileC]).errors.length = 1 ∧
    usageReport envW "JD" [fileA, fileBad, fileC] sessionW
      = Except.error
          "st.session_state has no attribute \"user_info\". Did you forget to initialize it?" ∧
    usageReport envW "JD" ([] : List UploadFile) sessionW = Except.ok Option.none := by
  refine ⟨?_, rfl, rfl, rfl, rfl⟩
  unfold usageReport
  split <;> rfl

/-- C7 as stated is false: on an unsupported media type, extraction raises
an error whose message is one fixed string, which does not carry the
offending media-type string. -/
theorem claim_C7_counterexample :
    fetch_text_content envW fileBad
      = Except.error "Unsupported file type. Provide PDF, DOCX, or TXT only." ∧
    charsContain fileBad.type.toList
        "Unsupported file type. Provide PDF, DOCX, or TXT only.".toList = false :=
  ⟨rfl, rfl⟩

/-- C7 amended: on every declared media type outside the supported set,
extraction fails with the fixed `ValueError` message (which does not include
the media type), that document contributes no record and no entry into the
evaluation engine, and the batch's engine entries are exactly the
per-document sum. -/
theorem claim_C7_unsupported_format (env : Env) (jd : String) (f : UploadFile)
    (h1 : f.type ≠ "application/pdf")
    (h2 : f.type ≠ "application/vnd.openxmlformats-officedocument.wordprocessingml.document")
    (h3 : f.type ≠ "application/msword")
    (h4 : f.type ≠ "text/plain") :
    fetch_text_content env f
      = Except.error "Unsupported file type. Provide PDF, DOCX, or TXT only." ∧
    docRecords env jd f = [] ∧
    docEvalCalls env jd f = 0 ∧
    ∀ files : List UploadFile,
      (runBatch env jd files).evalCalls = (files.map (docEvalCalls env jd)).sum := by
  have e1 : (f.type == "application/pdf") = false := beq_eq_false_iff_ne.mpr h1
  have e2 : (f.type
      == "application/vnd.openxmlformats-officedocument.wordprocessingml.document") = false :=
    beq_eq_false_iff_ne.mpr h2
  have e3 : (f.type == "application/msword") = false := beq_eq_false_iff_ne.mpr h3
  have e4 : (f.type == "text/plain") = false := beq_eq_false_iff_ne.mpr h4
  have hf : fetch_text_content env f
      = Except.error "Unsupported file type. Provide PDF, DOCX, or TXT only." := by
    unfold fetch_text_content
    simp [e1, e2, e3, e4]
  refine ⟨hf, ?_, ?_, runBatch_evalCalls env jd⟩
  · unfold docRecords
    rw [hf]
  · unfold docEvalCalls
    rw [hf]

/-- Witness for the amended C7 at a concrete `image/png` upload. -/
theorem claim_C7_unsupported_format_witness :
    fetch_text_content envW fileBad
      = Except.error "Unsupported file type. Provide PDF, DOCX, or TXT only." ∧
    docRecords envW "JD" fileBad = [] ∧
    docEvalCalls envW "JD" fileBad = 0 ∧
    (runBatch envW "JD" [fileA, fileBad]).evalCalls
      = ([fileA, fileBad].map (docEvalCalls envW "JD")).sum := by
  obtain ⟨h1, h2, h3, h4⟩ := claim_C7_unsupported_format envW "JD" fileBad
    (by decide) (by decide) (by decide) (by decide)
  exact ⟨h1, h2, h3, h4 [fileA, fileBad]⟩

/-- C8 as stated is false: on a successful service round-trip with a
well-formed question list, `generate_interview_qa` returns a formatted
string (with the 1-based numbering already baked in), not a list — so a
string-typed result does not indicate failure. -/
theorem claim_C8_counterexample :
    generate_interview_qa svcQAGood = .str "**1. Q1**\nSuggested Answer: A1\n" ∧
    Value.isList (generate_interview_qa svcQAGood) = false :=
  ⟨rfl, rfl⟩

/-- C8 amended: `generate_interview_qa` returns a string on every path —
the numbered question/answer text on success, and on any service or parse
failure the error text prefixed with a fixed marker — so callers cannot
distinguish success from failure by the result's type. -/
theorem claim_C8_string_result (svc : ServiceOutcome) :
    Value.isStr (generate_interview_qa svc) = true ∧
    (∀ e : String, generate_interview_qa (Except.error e)
        = .str ("Error generating interview Q&A: " ++ e)) := by
  constructor
  · unfold generate_interview_qa
    split <;> rfl
  · intro e
    rfl

/-- C9: on a stale stored selection (a truthy candidate name absent from
the new ranked list), the selectbox index computation raises `ValueError`
instead of defaulting to the top-ranked candidate; the default does apply
when the selection is unset. -/
theorem claim_C9_stale_selection_raises :
    selectCandidate [.str "Alice", .str "Bob"] (.str "Carol")
      = Except.error "Carol is not in list" ∧
    selectCandidate [.str "Alice", .str "Bob"] Value.none
      = Except.ok (.str "Alice") :=
  ⟨rfl, rfl⟩

/-- C10: on any input without an error key whose Score value fails integer
coercion, `parse_evaluation` discards the whole record and returns the
fallback tuple whose rationale carries the coercion error, regardless of the
other fields. -/
theorem claim_C10_score_coercion_discards (v sv : Value) (e : String)
    (h1 : pyContains v "error" = Except.ok false)
    (h2 : pyGet v "Score" (.int 0) = Except.ok sv)
    (h3 : pyInt sv = Except.error e) :
    parse_evaluation v
      = (0, .str "No", .list [], .str ("Error during parsing: " ++ e),
         .str "Unknown", .str "N/A") := by
  have hb : parse_evaluation_body v = Except.error e := by
    unfold parse_evaluation_body
    rw [h1]
    simp only [Bind.bind, Except.bind]
    rw [h2]
    simp only [Bool.false_eq_true, if_false]
    rw [h3]
    rfl
  unfold parse_evaluation
  rw [hb]

/-- Witness for C10: a dict with well-formed name, email, skills and
rationale whose Score is the string "ninety" is discarded wholesale. -/
theorem claim_C10_score_coercion_discards_witness :
    parse_evaluation badScoreDict
      = (0, .str "No", .list [],
         .str ("Error during parsing: "
               ++ "invalid literal for int() with base 10: 'ninety'"),
         .str "Unknown", .str "N/A") :=
  claim_C10_score_coercion_discards badScoreDict (.str "ninety")
    "invalid literal for int() with base 10: 'ninety'" rfl rfl rfl

end SkillSync
